import Mathlib

/-!
Verification of the eyes.selenium.python visual-checkpoint client.

This file shallowly embeds the two components the specification covers:

* the frame coordinate stack (`src/applitools/selenium/frames.py`:
  `Frame`, `FrameChain`), and
* the match-retry engine (`src/applitools/_match_window_task.py`:
  `MatchWindowTask._create_match_data_bytes`, `_get_dynamic_regions`,
  `_run_with_intervals`, `_run`, `match_window`, `match_region`,
  `match_element`).

Modelling conventions:

* Machine numbers are `Nat`/`Int`/`Rat`; byte strings are `List Nat`
  (each entry a byte value).
* Wall-clock time is ideal: screenshot capture and a round-trip to the
  remote comparator take zero time, and `time.sleep(d)` advances the
  clock by exactly `d`.  All durations are kept in milliseconds (the
  Python code divides caller-supplied milliseconds by 1000 and compares
  seconds; the comparisons are scale-invariant, so working in
  milliseconds is equivalent).
* Python exceptions are `Except` values; the external comparator is a
  function from the submission index to the boolean it replies with.
* Classes that this repository imports from modules not present in the
  source tree (`applitools.core.Point`, the `Target` region holders and
  their resolvers) are modelled from the specification; each such
  definition says so in its doc string.
-/

namespace EyesVerify

/-! ## Frame coordinate stack (`src/applitools/selenium/frames.py`) -/

/-- Modelled from the spec: `Point` of `applitools.core` (the module is not in
the source tree).  A plain integer pair `(x, y)`. -/
structure Point where
  x : Int
  y : Int
deriving DecidableEq, Repr

/-- Modelled from the spec: `Point.create_top_left()` is the origin `(0, 0)`. -/
def Point.createTopLeft : Point := ⟨0, 0⟩

/-- Modelled from the spec: `offset_by_location` shifts a point by another
point, coordinatewise (`current_offset` is "cumulative (x, y) obtained by
summing every frame's `location`"). -/
def Point.offsetByLocation (p q : Point) : Point := ⟨p.x + q.x, p.y + q.y⟩

/-- Modelled from the spec: `RectangleSize` of `applitools.utils.custom_types`
(not in the source tree), a width/height pair. -/
structure RectangleSize where
  width : Int
  height : Int
deriving DecidableEq, Repr

/-- `Frame` from `frames.py`.  `reference` is an opaque driver handle; we give
it type `Nat` so that distinct frame objects can be told apart.  The class
declares `__slots__ = ('reference', 'location', 'outer_size', 'inner_size',
'original_location', '_scroll_root_element', '_original_overflow')`; the two
underscore slots are initialised to `None` and never written, so they are
omitted here. -/
structure Frame where
  reference : Nat
  location : Point
  outer_size : RectangleSize
  inner_size : RectangleSize
  original_location : Point
deriving DecidableEq, Repr

/-- A `FrameChain` is its list of frames, outermost first (`push` appends at
the end, iteration runs front to back). -/
abbrev FrameChain := List Frame

/-- `FrameChain.current_frame_offset`: fold `offset_by_location` of each
frame's `location` over the chain, starting from `Point.create_top_left()`. -/
def current_frame_offset (c : FrameChain) : Point :=
  c.foldl (fun loc f => loc.offsetByLocation f.location) Point.createTopLeft

/-- Attribute lookup `frame.parent_scroll_position`.  `Frame` declares
`__slots__` without any `parent_scroll_position` slot and no such attribute is
ever assigned, so in Python this lookup raises `AttributeError` on every
`Frame`; the model returns `none` for every frame. -/
def Frame.parentScrollPosition (_f : Frame) : Option Point := none

/-- Errors surfaced by the frame chain: the empty-chain domain error (the
`EyesError('No frames in frame chain')` that the spec calls `NoFramesError`)
and Python `AttributeError`. -/
inductive FrameChainError where
  | noFrames
  | attributeError
deriving DecidableEq, Repr

/-- `FrameChain.default_content_scroll_position` from `frames.py`: raise the
empty-chain error when the chain is empty, otherwise read
`self[0].parent_scroll_position` (an attribute `Frame` does not have) and wrap
it in a fresh `Point`. -/
def default_content_scroll_position (c : FrameChain) :
    Except FrameChainError Point :=
  match c with
  | [] => .error .noFrames
  | f :: _ =>
    match f.parentScrollPosition with
    | none => .error .attributeError
    | some r => .ok ⟨r.x, r.y⟩

/-- `FrameChain.__eq__` from `frames.py`: `set(self) == set(other)`. -/
def chainEq (a b : FrameChain) : Bool :=
  decide (a.toFinset = b.toFinset)

/-! Concrete frames used by the claims' concrete instances. -/

/-- Frame at location (10, 20). -/
def frameA : Frame := ⟨1, ⟨10, 20⟩, ⟨0, 0⟩, ⟨0, 0⟩, ⟨0, 0⟩⟩

/-- Frame at location (5, 5). -/
def frameB : Frame := ⟨2, ⟨5, 5⟩, ⟨0, 0⟩, ⟨0, 0⟩, ⟨0, 0⟩⟩

/-- Frame at location (0, 3). -/
def frameC : Frame := ⟨3, ⟨0, 3⟩, ⟨0, 0⟩, ⟨0, 0⟩, ⟨0, 0⟩⟩

/-- Frame whose entry-time parent scroll position `original_location` is
(7, 9). -/
def frameD : Frame := ⟨4, ⟨1, 2⟩, ⟨0, 0⟩, ⟨0, 0⟩, ⟨7, 9⟩⟩

/-! ## Binary match-request framing (`MatchWindowTask._create_match_data_bytes`) -/

/-- Encoding `struct.pack(">L", n)`: the four big-endian bytes of `n`,
failing (as `struct.error` does) when `n` does not fit an unsigned 32-bit
integer. -/
def pack_be32 (n : Nat) : Option (List Nat) :=
  if n < 2 ^ 32 then
    some [n / 2 ^ 24 % 256, n / 2 ^ 16 % 256, n / 2 ^ 8 % 256, n % 256]
  else none

/-- Big-endian decoding of a byte list, the reading side of the wire
contract. -/
def unpack_be32 (bs : List Nat) : Nat :=
  bs.foldl (fun acc b => acc * 256 + b) 0

/-- Body assembly of `_create_match_data_bytes`.  The metadata dict has
already been serialised and UTF-8 encoded by
`general_utils.to_json(match_data).encode('utf-8')` (`general_utils` is
outside the source tree), so the function is parameterised by the resulting
JSON bytes and by the screenshot bytes (`screenshot.get_bytes()`); the body
is the 4-byte big-endian length of the JSON bytes, then the JSON bytes, then
the screenshot bytes. -/
def create_match_data_bytes (matchDataJsonBytes screenshotBytes : List Nat) :
    Option (List Nat) :=
  match pack_be32 matchDataJsonBytes.length with
  | none => none
  | some sizeBytes => some (sizeBytes ++ matchDataJsonBytes ++ screenshotBytes)

/-! ## Dynamic region resolution (`MatchWindowTask._get_dynamic_regions`) -/

/-- Modelled from the spec: a `Target` holds the configured ignore-region and
floating-region descriptor lists (`applitools.target` is outside the source
tree); the descriptor type stays abstract. -/
structure TargetRegions (D : Type) where
  ignore_regions : List D
  floating_regions : List D

/-- One `for`/`try` loop of `_get_dynamic_regions`: resolve each descriptor
with the given resolver (the spec's region-resolver interface, which fails
only with the out-of-bounds condition), append successes in order, and skip
with a logged warning the descriptors that raise `OutOfBoundsError`. -/
def resolveRegionLoop {D R : Type} (resolve : D → Except Unit R) :
    List D → List R
  | [] => []
  | d :: ds =>
    match resolve d with
    | .ok r => r :: resolveRegionLoop resolve ds
    | .error _ => resolveRegionLoop resolve ds

/-- Function `_get_dynamic_regions`: with no target both lists are empty,
otherwise the ignore and floating descriptor lists are each resolved by
`resolveRegionLoop`.  The function is total: a resolver failure never
escapes it. -/
def get_dynamic_regions {D R : Type} (resolve : D → Except Unit R)
    (target : Option (TargetRegions D)) : List R × List R :=
  match target with
  | none => ([], [])
  | some t =>
    (resolveRegionLoop resolve t.ignore_regions,
     resolveRegionLoop resolve t.floating_regions)

/-! ## Match-retry engine (`MatchWindowTask._run_with_intervals` / `_run`) -/

/-- Python exceptions the engine can raise in the modelled flows. -/
inductive PyErr where
  | valueError
  | typeError
deriving DecidableEq, Repr

/-- Projection of a prepared match-data body onto the field the retry engine
controls: the `IgnoreMismatch` flag handed to `_create_match_data_bytes`
(stored twice in the metadata dict, at the top level and under `Options`). -/
structure MatchData where
  ignoreMismatch : Bool
deriving DecidableEq, Repr

/-- A `prepare_action` callable as the engine sees it: the argument is the
optional keyword argument `ignore_mismatch` (`none` when called as
`prepare_action()`); a call either raises or captures a screenshot and
returns the packaged match data. -/
abbrev PrepareAction := Option Bool → Except PyErr MatchData

/-- Observable events of one checkpoint, in order: `sleep d` is `time.sleep`
for `d` milliseconds, `capture` is one screenshot acquisition (performed
inside `prepare_action`), and `submit im r` is one submission to the remote
comparator with `IgnoreMismatch = im`, answered by `r`. -/
inductive Event where
  | sleep (ms : Rat)
  | capture
  | submit (ignoreMismatch : Bool) (result : Bool)
deriving DecidableEq, Repr

/-- Constant `MatchWindowTask._MATCH_INTERVAL` (0.5 seconds), in
milliseconds. -/
def MATCH_INTERVAL_MS : Rat := 500

/-- Constant `MatchWindowTask.MINIMUM_MATCH_TIMEOUT` (milliseconds). -/
def MINIMUM_MATCH_TIMEOUT : Rat := 60

/-- Loop `while retry < retry_timeout` of `_run_with_intervals` together with
the final hard attempt after it.  `comparator k` is the remote comparator's
answer to submission number `k` of this checkpoint; `n` is the index of the
next submission; `retry` is the elapsed time in milliseconds since the timer
started (under the ideal clock, 500 per completed sleep).  While time
remains: sleep one interval, prepare a soft attempt
(`prepare_action(ignore_mismatch=True)`), submit, return on a match,
otherwise continue with the clock advanced.  Once time is up: one last
attempt prepared with no `ignore_mismatch` argument, whose result is
returned as is. -/
def runLoop (comparator : Nat → Bool) (action : PrepareAction)
    (retry_timeout : Rat) (n : Nat) (retry : Rat) :
    Except PyErr (List Event × Bool) :=
  if h : retry < retry_timeout then
    match action (some true) with
    | .error e => .error e
    | .ok d =>
      let res := comparator n
      if res then
        .ok ([.sleep MATCH_INTERVAL_MS, .capture, .submit d.ignoreMismatch res], true)
      else
        match runLoop comparator action retry_timeout (n + 1) (retry + MATCH_INTERVAL_MS) with
        | .error e => .error e
        | .ok (tr, b) =>
          .ok (.sleep MATCH_INTERVAL_MS :: .capture :: .submit d.ignoreMismatch res :: tr, b)
  else
    match action none with
    | .error e => .error e
    | .ok d =>
      let res := comparator n
      .ok ([.capture, .submit d.ignoreMismatch res], res)
termination_by (⌈(retry_timeout - retry) / MATCH_INTERVAL_MS⌉).toNat
decreasing_by
  simp only [MATCH_INTERVAL_MS]
  have key : (retry_timeout - (retry + 500)) / 500 = (retry_timeout - retry) / 500 - 1 := by
    ring
  rw [key, Int.ceil_sub_one]
  have hpos : 0 < ⌈(retry_timeout - retry) / 500⌉ :=
    Int.ceil_pos.mpr (div_pos (sub_pos.mpr h) (by norm_num))
  omega

/-- Function `_run_with_intervals` (retry mode): prepare and submit a first
soft attempt before starting the timer, return on an immediate match,
otherwise enter the sleep/attempt loop with the elapsed time at zero and
finish with the mandatory final hard attempt. -/
def run_with_intervals (comparator : Nat → Bool) (action : PrepareAction)
    (retry_timeout : Rat) : Except PyErr (List Event × Bool) :=
  match action (some true) with
  | .error e => .error e
  | .ok d =>
    let res := comparator 0
    if res then .ok ([.capture, .submit d.ignoreMismatch res], true)
    else
      match runLoop comparator action retry_timeout 1 0 with
      | .error e => .error e
      | .ok (tr, b) => .ok (.capture :: .submit d.ignoreMismatch res :: tr, b)

/-- Function `_run`: validate the caller-supplied timeout (a value strictly
between 0 and the 60 ms floor raises `ValueError` before anything else
happens), pick the effective timeout (negative means use the connection's
configured default), then either single-shot (sleep once for the effective
timeout, then one capture and one submission prepared with no
`ignore_mismatch` argument) or the retry engine. -/
def run (comparator : Nat → Bool) (action : PrepareAction)
    (default_retry_timeout : Rat) (run_once_after_wait : Bool)
    (retry_timeout : Rat) : Except PyErr (List Event × Bool) :=
  if 0 < retry_timeout ∧ retry_timeout < MINIMUM_MATCH_TIMEOUT then
    .error .valueError
  else
    let T := if retry_timeout < 0 then default_retry_timeout else retry_timeout
    if run_once_after_wait = true ∨ T = 0 then
      match action none with
      | .error e => .error e
      | .ok d =>
        let res := comparator 0
        .ok ([.sleep T, .capture, .submit d.ignoreMismatch res], res)
    else
      run_with_intervals comparator action T

/-- Callable built by `match_window`:
`functools.partial(self._prepare_match_data_for_window, tag, ..., target)`
pre-binds six positional arguments, leaving the `ignore_mismatch` parameter
free with its default `False`; a keyword call sets it. -/
def windowPrepareAction : PrepareAction :=
  fun km => .ok ⟨km.getD false⟩

/-- Callable built by `match_region`:
`functools.partial(self._prepare_match_data_for_region, region, tag, ...,
target, stitch_content)` pre-binds eight positional arguments, but
`_prepare_match_data_for_region` has no `stitch_content` parameter, so the
eighth positional (`stitch_content = False`) fills the `ignore_mismatch`
slot.  A plain call therefore builds the data with `ignore_mismatch=False`,
while a keyword call `prepare_action(ignore_mismatch=True)` raises
`TypeError` (got multiple values for argument) before any capture. -/
def regionPrepareAction : PrepareAction :=
  fun km =>
    match km with
    | none => .ok ⟨false⟩
    | some _ => .error .typeError

/-- Callable built by `match_element`:
`functools.partial(self._prepare_match_data_for_element, element, tag, ...,
target, stitch_content)` pre-binds eight positionals; unlike the region
variant, `_prepare_match_data_for_element` does have a `stitch_content`
parameter before `ignore_mismatch`, so `ignore_mismatch` stays free with its
default `False`.  The bound `stitchContent` value only selects the capture
mode. -/
def elementPrepareAction (_stitchContent : Bool) : PrepareAction :=
  fun km => .ok ⟨km.getD false⟩

/-- Method `MatchWindowTask.match_window`. -/
def match_window (comparator : Nat → Bool) (default_retry_timeout : Rat)
    (retry_timeout : Rat) (run_once_after_wait : Bool) :
    Except PyErr (List Event × Bool) :=
  run comparator windowPrepareAction default_retry_timeout run_once_after_wait
    retry_timeout

/-- Method `MatchWindowTask.match_region`. -/
def match_region (comparator : Nat → Bool) (default_retry_timeout : Rat)
    (retry_timeout : Rat) (run_once_after_wait : Bool) :
    Except PyErr (List Event × Bool) :=
  run comparator regionPrepareAction default_retry_timeout run_once_after_wait
    retry_timeout

/-- Method `MatchWindowTask.match_element`. -/
def match_element (comparator : Nat → Bool) (stitchContent : Bool)
    (default_retry_timeout : Rat) (retry_timeout : Rat)
    (run_once_after_wait : Bool) : Except PyErr (List Event × Bool) :=
  run comparator (elementPrepareAction stitchContent) default_retry_timeout
    run_once_after_wait retry_timeout

/-- Submissions recorded in a trace: each `submit` event's (`IgnoreMismatch`
flag, comparator answer) pair, in order. -/
def submissionsOf (tr : List Event) : List (Bool × Bool) :=
  tr.filterMap (fun e =>
    match e with
    | .submit im r => some (im, r)
    | _ => none)

/-- Number of iterations the retry loop performs under an always-false
comparator and timeout `T`: the least number of 500 ms sleeps whose total
reaches the timeout. -/
def loopIters (T : Rat) : Nat := (⌈T / MATCH_INTERVAL_MS⌉).toNat

/-- Trace generated by `runLoop` under an always-false comparator, as a
function of the number of remaining loop iterations. -/
def loopTrace : Nat → List Event
  | 0 => [.capture, .submit false false]
  | k + 1 => .sleep MATCH_INTERVAL_MS :: .capture :: .submit true false :: loopTrace k

/-! ## Theorems about the frame coordinate stack -/

theorem current_frame_offset_go (c : List Frame) :
    ∀ p : Point,
      c.foldl (fun loc f => loc.offsetByLocation f.location) p =
        ⟨p.x + (c.map (fun f => f.location.x)).sum,
         p.y + (c.map (fun f => f.location.y)).sum⟩ := by
  induction c with
  | nil => intro p; simp
  | cons f c ih =>
    intro p
    simp only [List.foldl_cons, List.map_cons, List.sum_cons, ih]
    simp [Point.offsetByLocation, add_assoc]

/-- C7: the current frame offset is the coordinatewise sum, from `(0, 0)` and
in stack order, of every frame's `location`; in particular the chain built
from frames at locations (10, 20), (5, 5), (0, 3) has offset (15, 28). -/
theorem current_frame_offset_is_location_sum :
    (∀ c : FrameChain,
        current_frame_offset c =
          ⟨(c.map (fun f => f.location.x)).sum,
           (c.map (fun f => f.location.y)).sum⟩) ∧
      current_frame_offset [frameA, frameB, frameC] = ⟨15, 28⟩ := by
  constructor
  · intro c
    simp [current_frame_offset, current_frame_offset_go, Point.createTopLeft]
  · decide

/-- C8: `default_content_scroll_position` does raise the empty-chain error on
the empty chain, but on a non-empty chain it does not return the outermost
frame's `original_location`: it reads the attribute `parent_scroll_position`,
which `Frame` does not define, so every non-empty chain raises
`AttributeError` instead of returning a `Point`. -/
theorem default_content_scroll_position_attribute_error :
    default_content_scroll_position [] = .error .noFrames ∧
      default_content_scroll_position [frameD] = .error .attributeError ∧
      default_content_scroll_position [frameD] ≠ .ok frameD.original_location := by
  refine ⟨rfl, rfl, ?_⟩
  intro h
  exact Except.noConfusion h

/-- C9: chain equality is set equality of the frames: two chains containing
the same frames are `==`-equal regardless of the order of the frames. -/
theorem chainEq_of_same_frames (a b : FrameChain)
    (h : ∀ f, f ∈ a ↔ f ∈ b) : chainEq a b = true := by
  simp only [chainEq, decide_eq_true_eq]
  ext f
  simp [List.mem_toFinset, h f]

/-- Witness for C9: the two-frame chains `[frameA, frameB]` and
`[frameB, frameA]` contain the same frames, and `chainEq` accepts them. -/
theorem chainEq_of_same_frames_witness :
    chainEq [frameA, frameB] [frameB, frameA] = true := by
  apply chainEq_of_same_frames
  intro f
  constructor <;> (intro hf; simp only [List.mem_cons] at hf ⊢; tauto)

/-! ## Theorems about the wire framing -/

/-- C4: the body built by `_create_match_data_bytes` is exactly the 4-byte
big-endian JSON length, then the JSON bytes, then the screenshot bytes, and
the framing round-trips: decoding the first 4 bytes gives the JSON length,
and splitting the rest there recovers the JSON and image segments. -/
theorem create_match_data_bytes_framing (json img : List Nat)
    (h : json.length < 2 ^ 32) :
    ∃ body : List Nat,
      create_match_data_bytes json img = some body ∧
      body = [json.length / 2 ^ 24 % 256, json.length / 2 ^ 16 % 256,
              json.length / 2 ^ 8 % 256, json.length % 256] ++ json ++ img ∧
      unpack_be32 (body.take 4) = json.length ∧
      (body.drop 4).take json.length = json ∧
      (body.drop 4).drop json.length = img := by
  refine ⟨[json.length / 2 ^ 24 % 256, json.length / 2 ^ 16 % 256,
           json.length / 2 ^ 8 % 256, json.length % 256] ++ json ++ img,
    ?_, rfl, ?_, ?_, ?_⟩
  · unfold create_match_data_bytes pack_be32
    rw [if_pos h]
  · show unpack_be32 [json.length / 2 ^ 24 % 256, json.length / 2 ^ 16 % 256,
      json.length / 2 ^ 8 % 256, json.length % 256] = json.length
    simp only [unpack_be32, List.foldl]
    omega
  · show (json ++ img).take json.length = json
    exact List.take_left json img
  · show (json ++ img).drop json.length = img
    exact List.drop_left json img

/-- Witness for C4: framing of the two-byte JSON `[104, 105]` with the
three-byte image `[1, 2, 3]`. -/
theorem create_match_data_bytes_framing_witness :
    ∃ body : List Nat,
      create_match_data_bytes [104, 105] [1, 2, 3] = some body ∧
      body = [0, 0, 0, 2] ++ [104, 105] ++ [1, 2, 3] ∧
      unpack_be32 (body.take 4) = 2 ∧
      (body.drop 4).take 2 = [104, 105] ∧
      (body.drop 4).drop 2 = [1, 2, 3] := by
  have h := create_match_data_bytes_framing [104, 105] [1, 2, 3] (by decide)
  simpa using h

/-! ## Theorems about dynamic region resolution -/

theorem resolveRegionLoop_eq_filterMap {D R : Type}
    (resolve : D → Except Unit R) (l : List D) :
    resolveRegionLoop resolve l =
      l.filterMap (fun d => (resolve d).toOption) := by
  induction l with
  | nil => rfl
  | cons d ds ih =>
    cases hr : resolve d <;>
      simp [resolveRegionLoop, hr, Except.toOption, ih]

/-- C6: resolving the configured ignore and floating descriptors keeps, in
their original order, exactly the descriptors whose resolution succeeds;
descriptors whose resolution fails with the out-of-bounds error are omitted;
and `_get_dynamic_regions` is total, so region resolution never aborts the
checkpoint. -/
theorem get_dynamic_regions_drops_out_of_bounds {D R : Type}
    (resolve : D → Except Unit R) (t : TargetRegions D) :
    (get_dynamic_regions resolve (some t)).1 =
        t.ignore_regions.filterMap (fun d => (resolve d).toOption) ∧
      (get_dynamic_regions resolve (some t)).2 =
        t.floating_regions.filterMap (fun d => (resolve d).toOption) :=
  ⟨resolveRegionLoop_eq_filterMap resolve t.ignore_regions,
   resolveRegionLoop_eq_filterMap resolve t.floating_regions⟩

/-! ## Theorems about the match-retry engine -/

/-- C3: every caller-supplied `retry_timeout` strictly between 0 and 60
milliseconds makes `match_window`, `match_region` and `match_element` (via
`_run`) raise `ValueError`, whatever the comparator does — in particular
before any capture or submission: the validation is the first statement of
`_run` and the result does not depend on the prepare action or the
comparator. -/
theorem run_rejects_subminimum_timeout (t : Rat) (h1 : 0 < t) (h2 : t < 60)
    (comparator : Nat → Bool) (d : Rat) (ro : Bool) :
    match_window comparator d t ro = .error .valueError ∧
      match_region comparator d t ro = .error .valueError ∧
      ∀ sc, match_element comparator sc d t ro = .error .valueError := by
  have hv : 0 < t ∧ t < MINIMUM_MATCH_TIMEOUT := ⟨h1, by
    simpa [MINIMUM_MATCH_TIMEOUT] using h2⟩
  refine ⟨?_, ?_, fun sc => ?_⟩ <;>
    simp [match_window, match_region, match_element, run, hv]

/-- Witness for C3: a 30 ms timeout is rejected on all three entry points. -/
theorem run_rejects_subminimum_timeout_witness :
    match_window (fun _ => true) 2000 30 false = .error .valueError ∧
      match_region (fun _ => true) 2000 30 false = .error .valueError ∧
      ∀ sc, match_element (fun _ => true) sc 2000 30 false = .error .valueError :=
  run_rejects_subminimum_timeout 30 (by norm_num) (by norm_num)
    (fun _ => true) 2000 false

/-- C2 counter-evidence: in retry mode (`run_once_after_wait = false`, valid
timeout 500 ms) `match_region` does not submit soft attempts with
`ignore_mismatch=true`; the very first
`prepare_action(ignore_mismatch=True)` raises `TypeError`, because
`match_region` pre-binds its local `stitch_content` as an eighth positional
argument of `_prepare_match_data_for_region`, which lands in that function's
`ignore_mismatch` slot and collides with the keyword. -/
theorem match_region_retry_mode_type_error :
    match_region (fun _ => false) 2000 500 false = .error .typeError := by
  rfl

theorem run_single_shot_aux (comparator : Nat → Bool) (action : PrepareAction)
    (d t : Rat) (ro : Bool)
    (hv : ¬(0 < t ∧ t < MINIMUM_MATCH_TIMEOUT))
    (hmode : ro = true ∨ (if t < 0 then d else t) = 0)
    (hact : action none = .ok ⟨false⟩) :
    run comparator action d ro t =
      .ok ([.sleep (if t < 0 then d else t), .capture,
            .submit false (comparator 0)], comparator 0) := by
  rw [run, if_neg hv]
  simp only
  rw [if_pos hmode, hact]

/-- C5: in single-shot mode (`run_once_after_wait` true, or effective timeout
zero, under a validated caller timeout) the engine sleeps exactly once, for
the effective timeout, then performs exactly one capture and exactly one
submission, and returns that submission's boolean answer; the retry loop is
never entered. -/
theorem run_single_shot_once (comparator : Nat → Bool) (action : PrepareAction)
    (d t : Rat) (ro : Bool)
    (hv : ¬(0 < t ∧ t < MINIMUM_MATCH_TIMEOUT))
    (hmode : ro = true ∨ (if t < 0 then d else t) = 0)
    (hact : action none = .ok ⟨false⟩) :
    ∃ r : Bool,
      run comparator action d ro t =
        .ok ([.sleep (if t < 0 then d else t), .capture, .submit false r], r) :=
  ⟨comparator 0, run_single_shot_aux comparator action d t ro hv hmode hact⟩

/-- Witness for C5: effective timeout 0 with the window prepare action gives
one zero-length sleep, one capture, one submission, and its result. -/
theorem run_single_shot_once_witness :
    ∃ r : Bool,
      run (fun _ => false) windowPrepareAction 3000 false 0 =
        .ok ([.sleep 0, .capture, .submit false r], r) := by
  have h := run_single_shot_once (fun _ => false) windowPrepareAction 3000 0
    false (by norm_num [MINIMUM_MATCH_TIMEOUT]) (Or.inr (by norm_num)) rfl
  simpa using h

/-- C10: in single-shot mode the one request is always hard: `_run` invokes
`prepare_action` with no `ignore_mismatch` argument, and for each of the
three prepare actions (window, region, element — the latter with either
stitch mode) the resulting data carries `IgnoreMismatch = false`. -/
theorem single_shot_submission_is_hard (comparator : Nat → Bool) (d t : Rat)
    (ro : Bool) (hv : ¬(0 < t ∧ t < MINIMUM_MATCH_TIMEOUT))
    (hmode : ro = true ∨ (if t < 0 then d else t) = 0) :
    ∀ action : PrepareAction,
      (action = windowPrepareAction ∨ action = regionPrepareAction ∨
        ∃ sc, action = elementPrepareAction sc) →
      ∃ r : Bool,
        run comparator action d ro t =
          .ok ([.sleep (if t < 0 then d else t), .capture, .submit false r], r) := by
  intro action hA
  refine ⟨comparator 0, run_single_shot_aux comparator action d t ro hv hmode ?_⟩
  rcases hA with hA | hA | ⟨sc, hA⟩ <;> subst hA <;> rfl

/-- Witness for C10: a `run_once_after_wait` call through the region prepare
action with the default timeout (700 ms) submits once with
`IgnoreMismatch = false`. -/
theorem single_shot_submission_is_hard_witness :
    ∃ r : Bool,
      run (fun _ => true) regionPrepareAction 700 true (-1) =
        .ok ([.sleep 700, .capture, .submit false r], r) := by
  have h := single_shot_submission_is_hard (fun _ => true) 700 (-1) true
    (by norm_num [MINIMUM_MATCH_TIMEOUT]) (Or.inl rfl)
    regionPrepareAction (Or.inr (Or.inl rfl))
  simpa using h

theorem runLoop_always_false (action : PrepareAction)
    (hact : ∀ km, action km = .ok ⟨km.getD false⟩) :
    ∀ (k : Nat) (T retry : Rat),
      (⌈(T - retry) / MATCH_INTERVAL_MS⌉).toNat = k →
      ∀ n, runLoop (fun _ => false) action T n retry = .ok (loopTrace k, false) := by
  intro k
  induction k with
  | zero =>
    intro T retry hk n
    have hnlt : ¬ retry < T := by
      intro hlt
      have hpos : 0 < ⌈(T - retry) / MATCH_INTERVAL_MS⌉ :=
        Int.ceil_pos.mpr
          (div_pos (sub_pos.mpr hlt) (by norm_num [MATCH_INTERVAL_MS]))
      omega
    rw [runLoop, dif_neg hnlt, hact none]
    rfl
  | succ k ih =>
    intro T retry hk n
    have hlt : retry < T := by
      by_contra hnlt
      have hle : (T - retry) / MATCH_INTERVAL_MS ≤ 0 :=
        div_nonpos_of_nonpos_of_nonneg (by linarith [le_of_not_lt hnlt])
          (by norm_num [MATCH_INTERVAL_MS])
      have hc : ⌈(T - retry) / MATCH_INTERVAL_MS⌉ ≤ 0 :=
        Int.ceil_le.mpr (by exact_mod_cast hle)
      omega
    have hmeas : (⌈(T - (retry + MATCH_INTERVAL_MS)) / MATCH_INTERVAL_MS⌉).toNat = k := by
      have key : (T - (retry + MATCH_INTERVAL_MS)) / MATCH_INTERVAL_MS =
          (T - retry) / MATCH_INTERVAL_MS - 1 := by
        simp only [MATCH_INTERVAL_MS]
        ring
      rw [key, Int.ceil_sub_one]
      omega
    rw [runLoop, dif_pos hlt, hact (some true)]
    simp only
    rw [ih T (retry + MATCH_INTERVAL_MS) hmeas (n + 1)]
    rfl

theorem run_with_intervals_always_false (action : PrepareAction)
    (hact : ∀ km, action km = .ok ⟨km.getD false⟩) (T : Rat) :
    run_with_intervals (fun _ => false) action T =
      .ok (.capture :: .submit true false :: loopTrace (loopIters T), false) := by
  rw [run_with_intervals, hact (some true)]
  simp only
  rw [runLoop_always_false action hact (loopIters T) T 0
    (by rw [sub_zero]; rfl) 1]
  rfl

theorem submissionsOf_cons_capture (tr : List Event) :
    submissionsOf (.capture :: tr) = submissionsOf tr := rfl

theorem submissionsOf_cons_submit (im r : Bool) (tr : List Event) :
    submissionsOf (.submit im r :: tr) = (im, r) :: submissionsOf tr := rfl

theorem submissionsOf_loopTrace (k : Nat) :
    submissionsOf (loopTrace k) =
      List.replicate k (true, false) ++ [(false, false)] := by
  induction k with
  | zero => rfl
  | succ k ih => simp [loopTrace, submissionsOf, List.replicate] at ih ⊢; exact ih

/-- C1: in retry mode with timeout `T > 0` and an always-false comparator,
the engine submits a first soft attempt, then one soft attempt per loop
iteration while the elapsed time is below `T` (`loopIters T` of them, at
500 ms per iteration), then exactly one final hard attempt
(`ignore_mismatch=false`), and returns that final attempt's boolean answer;
the total number of submissions is `loopIters T + 2`, which is within one of
`⌊T/500⌋ + 2`. -/
theorem retry_mode_always_false_submission_schedule (T : Rat) (hT : 0 < T) :
    ∃ tr : List Event,
      run_with_intervals (fun _ => false) windowPrepareAction T = .ok (tr, false) ∧
      submissionsOf tr =
        (true, false) :: (List.replicate (loopIters T) (true, false) ++
          [(false, false)]) ∧
      (submissionsOf tr).length = loopIters T + 2 ∧
      (⌊T / MATCH_INTERVAL_MS⌋).toNat + 2 ≤ loopIters T + 2 ∧
      loopIters T + 2 ≤ (⌊T / MATCH_INTERVAL_MS⌋).toNat + 3 := by
  have hsub : submissionsOf (.capture :: .submit true false :: loopTrace (loopIters T)) =
      (true, false) :: (List.replicate (loopIters T) (true, false) ++
        [(false, false)]) := by
    rw [submissionsOf_cons_capture, submissionsOf_cons_submit,
      submissionsOf_loopTrace]
  refine ⟨.capture :: .submit true false :: loopTrace (loopIters T),
    run_with_intervals_always_false windowPrepareAction (fun _ => rfl) T,
    ?_, ?_, ?_, ?_⟩
  · exact hsub
  · rw [hsub]; simp
  · have h1 : ⌊T / MATCH_INTERVAL_MS⌋ ≤ ⌈T / MATCH_INTERVAL_MS⌉ :=
      Int.floor_le_ceil _
    simp only [loopIters]
    omega
  · have h2 : ⌈T / MATCH_INTERVAL_MS⌉ ≤ ⌊T / MATCH_INTERVAL_MS⌋ + 1 :=
      Int.ceil_le_floor_add_one _
    have h3 : 0 ≤ ⌊T / MATCH_INTERVAL_MS⌋ :=
      Int.floor_nonneg.mpr
        (div_nonneg (le_of_lt hT) (by norm_num [MATCH_INTERVAL_MS]))
    simp only [loopIters]
    omega

/-- Witness for C1: timeout 1000 ms gives two loop iterations, four
submissions in all — first soft, two loop soft, one final hard — and the
returned result is the final attempt's `false`. -/
theorem retry_mode_always_false_submission_schedule_witness :
    ∃ tr : List Event,
      run_with_intervals (fun _ => false) windowPrepareAction 1000 = .ok (tr, false) ∧
      submissionsOf tr =
        (true, false) :: (List.replicate 2 (true, false) ++ [(false, false)]) ∧
      (submissionsOf tr).length = 2 + 2 ∧
      2 + 2 ≤ 2 + 2 ∧
      2 + 2 ≤ 2 + 3 := by
  have hIters : loopIters 1000 = 2 := by
    norm_num [loopIters, MATCH_INTERVAL_MS]
    rfl
  have hFloor : (⌊(1000 : Rat) / MATCH_INTERVAL_MS⌋).toNat = 2 := by
    norm_num [MATCH_INTERVAL_MS]
    rfl
  have h := retry_mode_always_false_submission_schedule 1000 (by norm_num)
  rw [hIters, hFloor] at h
  exact h

end EyesVerify
